import Mathlib

/-!
Verification development for the MarketingAgentFactory repository.

The repository is a pair of small Python HTTP services:

* `src/agents/content_agent.py` and `src/agents/app.py` — a Flask service whose
  `ContentAgent` generates marketing content with an evaluator-optimizer
  workflow (generate, evaluate via a labeled-line text parser, conditionally
  optimize based on score thresholds);
* `src/ai-agent/generator.py` / `routes.py` / `main.py` — a FastAPI service
  with a bounded evaluate/improve feedback loop.

This file shallowly embeds the pure logic of those modules.  External
model calls (Google Gemini / transformers pipelines) are abstracted as
oracle parameters: a call that can raise is an `Except PyErr String`
value, a pipeline is a `String → String` function.  Python `str` values
are modelled as `List Char` (with `String` wrappers at the interfaces),
Python `float` as `ℚ` (all numeric literals appearing in the code — 7.0,
8.5, 6.5 — are exactly representable, and the code only compares and
copies scores), and Python dicts as association lists.  Wall-clock timing
fields (`generationTimeSeconds` etc.) and logging are omitted.
-/

/-! ## Python string primitives

Models of the Python `str` methods the agent code uses, over `List Char`.
`str.strip` uses Python's whitespace set; `str.lower`/`upper`/`capitalize`
are modelled on ASCII (the agent only manipulates ASCII label text).
-/

/-- The characters Python `str.strip()` removes. -/
def isPyWs (c : Char) : Bool :=
  c == ' ' || c == '\t' || c == '\n' || c == '\r' || c == '\x0b' || c == '\x0c'

/-- `startsWithL s pat` models Python `s.startswith(pat)`. -/
def startsWithL : List Char → List Char → Bool
  | _, [] => true
  | [], _ :: _ => false
  | c :: cs, p :: ps => c == p && startsWithL cs ps

/-- Python `s.strip()`: drop leading and trailing whitespace. -/
def pyStripL (s : List Char) : List Char :=
  ((s.dropWhile isPyWs).reverse.dropWhile isPyWs).reverse

/-- Python `s.strip(chars)`: drop leading and trailing characters from `chars`. -/
def pyStripCharsL (chars s : List Char) : List Char :=
  ((s.dropWhile (chars.contains ·)).reverse.dropWhile (chars.contains ·)).reverse

/-- Python `s.split(sep)` for a one-character separator (e.g. `split('\n')`). -/
def splitOnCharL (sep : Char) : List Char → List (List Char)
  | [] => [[]]
  | c :: t =>
    if c == sep then [] :: splitOnCharL sep t
    else
      match splitOnCharL sep t with
      | h :: r => (c :: h) :: r
      | [] => [[c]]

/-- Python `s.split(sep, 1)` for a one-character separator: split at the
first occurrence only. -/
def splitOnceCharL (sep : Char) : List Char → List (List Char)
  | [] => [[]]
  | c :: t =>
    if c == sep then [[], t]
    else
      match splitOnceCharL sep t with
      | h :: r => (c :: h) :: r
      | [] => [[c]]

/-- Fuel-driven worker for `replaceAllL`; one character (or one pattern
occurrence) is consumed per step, so `s.length` fuel suffices. -/
def replAux (pat : List Char) : Nat → List Char → List Char
  | 0, s => s
  | fuel + 1, s =>
    if startsWithL s pat && !pat.isEmpty then
      replAux pat fuel (s.drop pat.length)
    else
      match s with
      | [] => []
      | c :: t => c :: replAux pat fuel t

/-- Python `s.replace(pat, "")` for non-empty `pat`: remove every
(left-to-right, non-overlapping) occurrence of `pat`. -/
def replaceAllL (pat s : List Char) : List Char :=
  replAux pat s.length s

/-- Fuel-driven worker for `pySplitWsL`. -/
def splitWsAux : Nat → List Char → List (List Char)
  | 0, _ => []
  | fuel + 1, s =>
    let s1 := s.dropWhile isPyWs
    match s1 with
    | [] => []
    | _ :: _ =>
        s1.takeWhile (fun c => !isPyWs c) ::
          splitWsAux fuel (s1.dropWhile (fun c => !isPyWs c))

/-- Python `s.split()` with no argument: split on whitespace runs and drop
empty fields. -/
def pySplitWsL (s : List Char) : List (List Char) :=
  splitWsAux (s.length + 1) s

/-- Fuel-driven worker for `pySplitSubL`. -/
def splitSubAux (pat : List Char) : Nat → List Char → List (List Char)
  | 0, s => [s]
  | fuel + 1, s =>
    if startsWithL s pat && !pat.isEmpty then
      [] :: splitSubAux pat fuel (s.drop pat.length)
    else
      match s with
      | [] => [[]]
      | c :: t =>
        match splitSubAux pat fuel t with
        | h :: r => (c :: h) :: r
        | [] => [[c]]

/-- Python `s.split(pat)` for a non-empty string separator. -/
def pySplitSubL (pat s : List Char) : List (List Char) :=
  splitSubAux pat (s.length + 1) s

/-- `hasSubL needle hay` models the Python expression `needle in hay`. -/
def hasSubL (needle : List Char) : List Char → Bool
  | [] => startsWithL [] needle
  | c :: t => startsWithL (c :: t) needle || hasSubL needle t

/-- Python `s.lower()` (ASCII). -/
def pyLowerL (s : List Char) : List Char := s.map Char.toLower

/-- Python `s.upper()` (ASCII). -/
def pyUpperL (s : List Char) : List Char := s.map Char.toUpper

/-- Python `s.capitalize()` (ASCII): first character upper-cased, the rest
lower-cased. -/
def pyCapitalizeL : List Char → List Char
  | [] => []
  | c :: t => c.toUpper :: t.map Char.toLower

/-- Value of a decimal digit string, most significant digit first. -/
def digitsToNat (ds : List Char) : Nat :=
  ds.foldl (fun a c => 10 * a + (c.toNat - 48)) 0

/-- Exponent part of a Python float literal (after the `e`/`E`). -/
def parseExp (s : List Char) : Option Int :=
  match s with
  | [] => none
  | c :: t =>
    let p : Int × List Char :=
      if c = '-' then (-1, t) else if c = '+' then (1, t) else (1, c :: t)
    if !p.2.isEmpty && p.2.all Char.isDigit then
      some (p.1 * (digitsToNat p.2 : Int))
    else none

/-- Unsigned part of a Python float literal: digits, optional fractional
part, optional exponent. -/
def pyFloatCore (s : List Char) : Option ℚ :=
  let ip := s.takeWhile Char.isDigit
  let r1 := s.dropWhile Char.isDigit
  let mantissa : Option (ℚ × List Char) :=
    match r1 with
    | '.' :: t =>
      let fp := t.takeWhile Char.isDigit
      let r2 := t.dropWhile Char.isDigit
      if ip.isEmpty && fp.isEmpty then none
      else some ((digitsToNat ip : ℚ) + (digitsToNat fp : ℚ) / (10 : ℚ) ^ fp.length, r2)
    | _ => if ip.isEmpty then none else some ((digitsToNat ip : ℚ), r1)
  match mantissa with
  | none => none
  | some (m, rest) =>
    match rest with
    | [] => some m
    | c :: t =>
      if c = 'e' ∨ c = 'E' then (parseExp t).map (fun e => m * (10 : ℚ) ^ e)
      else none

/-- Model of the Python builtin `float(s)`, returning `none` where Python
raises `ValueError`.  Restricted to decimal literals (optional sign,
digits, fractional part, exponent) with surrounding whitespace; the
`inf`/`nan` spellings and digit underscores are not modelled (they never
denote in-range quality scores and do not arise in any claim). -/
def pyFloat (s0 : List Char) : Option ℚ :=
  match pyStripL s0 with
  | [] => none
  | c :: t =>
    if c = '-' then (pyFloatCore t).map (fun q => -q)
    else if c = '+' then pyFloatCore t
    else pyFloatCore (c :: t)

/-! ## Evaluation data model and the evaluation-response parser

Embedding of `ContentAgent._parse_evaluation_response` and
`ContentAgent._evaluate_content` from `src/agents/content_agent.py`.
The parser scans the model's free-text evaluation line by line, tracking a
current-section label, exactly as the Python code does.  The Python
function's outer `try/except` wraps only total operations in this model,
so the embedded parser is the (total) `try` body.
-/

/-- Exceptions raised by Python code: `ValueError` (mapped to HTTP 400 by
the `/generate` handler) versus any other exception (mapped to 500). -/
inductive PyErr where
  | valueError (msg : String)
  | exc (msg : String)
deriving Repr, DecidableEq

/-- `str(e)` for a modelled exception. -/
def PyErr.msg : PyErr → String
  | .valueError m => m
  | .exc m => m

/-- The structured evaluation dict built by `_parse_evaluation_response`
(whose parse result has no `rawEvaluation` key; `_evaluate_content` adds
it, modelled here as a field defaulting to `""`). -/
structure Evaluation where
  score : ℚ
  criteriaScores : List (String × ℚ)
  strengths : List String
  improvements : List String
  needsImprovement : Bool
  optimizationGuidance : String
  rawEvaluation : String
deriving Repr, DecidableEq

/-- The `section` variable of the parsing loop. -/
inductive PSec where
  | blank | criteria | score | strengths | improvements | needsOpt | optGuidance
deriving Repr, DecidableEq

/-- Mutable state of the parsing loop: the current section, the
accumulated `criteria_scores` dict and the fields of the evaluation dict
mutated by the loop. -/
structure ParseSt where
  sec : PSec
  score : ℚ
  criteriaScores : List (List Char × ℚ)
  strengths : List (List Char)
  improvements : List (List Char)
  needsImprovement : Bool
  optimizationGuidance : List Char
deriving Repr, DecidableEq

/-- Python dict assignment `d[k] = v`: update in place if the key exists,
else append. -/
def dictSet : List (List Char × ℚ) → List Char → ℚ → List (List Char × ℚ)
  | [], k, v => [(k, v)]
  | (k', v') :: t, k, v =>
    if k' == k then (k', v) :: t else (k', v') :: dictSet t k v

def critLabel : List Char := "CRITERIA_SCORES:".toList
def overallLabel : List Char := "OVERALL_SCORE:".toList
def strengthsLabel : List Char := "STRENGTHS:".toList
def improvementsLabel : List Char := "IMPROVEMENTS:".toList
def needsOptLabel : List Char := "NEEDS_OPTIMIZATION:".toList
def optGuidanceLabel : List Char := "OPTIMIZATION_GUIDANCE:".toList

/-- Body of the `section == "criteria"` branch: `line.strip("- ")`, split
on the first `:`, parse the score (with `"/10"` removed) and store it
under the camel-cased criterion name; any float-conversion failure or an
empty criterion name skips the line (the Python `except: pass`). -/
def parse_criteria_line (st : ParseSt) (line : List Char) : ParseSt :=
  match splitOnceCharL ':' (pyStripCharsL ['-', ' '] line) with
  | [namePart, rest] =>
    match splitOnceCharL '-' (pyStripL rest) with
    | sp :: _ =>
      match pyFloat (pyStripL (replaceAllL "/10".toList sp)) with
      | none => st
      | some v =>
        match pySplitWsL (pyStripL namePart) with
        | [] => st
        | w :: ws =>
          { st with criteriaScores :=
              dictSet st.criteriaScores (pyLowerL w ++ (ws.map pyCapitalizeL).flatten) v }
    | [] => st
  | _ => st

/-- Body of the `section == "strengths"` / `"improvements"` branches:
lines starting `1.`/`2.`/`3.` contribute their stripped tail when it is
non-empty. -/
def parse_numbered_line (acc : List (List Char)) (line : List Char) : List (List Char) :=
  if startsWithL line "1.".toList || startsWithL line "2.".toList
      || startsWithL line "3.".toList then
    match splitOnceCharL '.' line with
    | [_, restPart] =>
      if (pyStripL restPart).isEmpty then acc else acc ++ [pyStripL restPart]
    | _ => acc
  else acc

/-- One iteration of the parsing loop of `_parse_evaluation_response`:
strip the line, switch sections on a recognized label (capturing the
overall score, the needs-optimization flag or the guidance head), else
accumulate into the current section. -/
def parse_line (st : ParseSt) (rawLine : List Char) : ParseSt :=
  let line := pyStripL rawLine
  if startsWithL line critLabel then { st with sec := .criteria }
  else if startsWithL line overallLabel then
    let st1 := { st with sec := .score }
    match pySplitWsL (pyStripL (replaceAllL overallLabel line)) with
    | [] => st1
    | tok :: _ =>
      match pyFloat tok with
      | none => st1
      | some v => { st1 with score := v }
  else if startsWithL line strengthsLabel then { st with sec := .strengths }
  else if startsWithL line improvementsLabel then { st with sec := .improvements }
  else if startsWithL line needsOptLabel then
    { st with
      sec := .needsOpt,
      needsImprovement :=
        pyUpperL (pyStripL (replaceAllL needsOptLabel line)) == "YES".toList }
  else if startsWithL line optGuidanceLabel then
    { st with
      sec := .optGuidance,
      optimizationGuidance := pyStripL (replaceAllL optGuidanceLabel line) }
  else
    match st.sec with
    | .criteria =>
      if startsWithL line ['-'] then parse_criteria_line st line else st
    | .strengths => { st with strengths := parse_numbered_line st.strengths line }
    | .improvements => { st with improvements := parse_numbered_line st.improvements line }
    | .optGuidance =>
      if line.isEmpty then st
      else if st.optimizationGuidance.isEmpty then
        { st with optimizationGuidance := line }
      else
        { st with optimizationGuidance := st.optimizationGuidance ++ ' ' :: line }
    | _ => st

/-- Initial evaluation dict of `_parse_evaluation_response` (score `7.0`,
empty lists, `needsImprovement = False`). -/
def initSt : ParseSt := ⟨.blank, 7, [], [], [], false, []⟩

/-- `ContentAgent._parse_evaluation_response`: fold the line parser over
`evaluation_text.split('\n')`, then force `needsImprovement` when the
final score is below 7. -/
def parse_evaluation_response (evaluation_text : String) : Evaluation :=
  let st := (splitOnCharL '\n' evaluation_text.toList).foldl parse_line initSt
  { score := st.score
    criteriaScores := st.criteriaScores.map (fun p => (String.mk p.1, p.2))
    strengths := st.strengths.map String.mk
    improvements := st.improvements.map String.mk
    needsImprovement := if st.score < 7 then true else st.needsImprovement
    optimizationGuidance := String.mk st.optimizationGuidance
    rawEvaluation := "" }

/-- `ContentAgent._evaluate_content` with the Gemini call abstracted as
its outcome `modelResult`: on success, parse the response text and attach
it as `rawEvaluation`; on any exception, return the hardcoded default
evaluation. -/
def evaluate_content (modelResult : Except PyErr String) : Evaluation :=
  match modelResult with
  | .ok evaluation_text =>
    { parse_evaluation_response evaluation_text with rawEvaluation := evaluation_text }
  | .error e =>
    { score := 13/2
      criteriaScores := [("brandVoice", 13/2), ("platformFit", 13/2),
        ("keyMessages", 13/2), ("audienceEngagement", 13/2), ("clarity", 13/2),
        ("callToAction", 13/2), ("overallQuality", 13/2)]
      strengths := ["Content generated successfully"]
      improvements := ["Refine messaging to better match brand voice",
        "Improve clarity for target audience"]
      needsImprovement := true
      optimizationGuidance := "Revise to better capture the brand voice and clarify messaging"
      rawEvaluation := "Evaluation failed: " ++ e.msg }

/-! ## Content generation workflow

Embedding of `ContentAgent.generate_content`, `_optimize_content` and
`_generate_suggestions` from `src/agents/content_agent.py`.  The three
Gemini calls of one request are abstracted as oracles: the initial
generation as its outcome, the evaluation call as a function of the
content being evaluated (the only argument that differs between the two
evaluation calls of a request), and the optimization call as its outcome.
Prompt construction (`_build_generation_prompt` and the inline prompt
strings), logging, wall-clock timing fields and the display-only
`_estimate_content_metrics` map are not modelled: none of them feed back
into the control flow or the fields any claim mentions.
-/

/-- `self.model_name` under the default `GEMINI_MODEL` environment. -/
def model_name : String := "gemini-2.0-flash"

/-- The two smart-threshold settings of `ContentAgent.__init__`. -/
structure AgentCfg where
  low_quality_threshold : ℚ
  high_quality_threshold : ℚ
deriving Repr, DecidableEq

/-- Thresholds under the default `LOW_QUALITY_THRESHOLD=7.0`,
`HIGH_QUALITY_THRESHOLD=8.5` environment. -/
def defaultCfg : AgentCfg := ⟨7, 17/2⟩

/-- `ContentAgent._optimize_content` with the Gemini call abstracted as
`modelResult`; returns `(optimized_content, reasoning)`. -/
def optimize_content (original_content : String) (evaluation : Evaluation)
    (optimization_type : String) (modelResult : Except PyErr String) :
    String × String :=
  if evaluation.improvements.isEmpty && evaluation.optimizationGuidance.toList.isEmpty then
    (original_content, "No improvements needed")
  else
    match modelResult with
    | .error e => (original_content, "Optimization failed: " ++ e.msg)
    | .ok full_response =>
      let parts := pySplitSubL "```".toList full_response.toList
      if 3 ≤ parts.length then
        (String.mk (pyStripL (parts.getD 1 [])), String.mk (pyStripL (parts.getD 0 [])))
      else
        let lines := splitOnCharL '\n' full_response.toList
        let markers := ["OPTIMIZED CONTENT:", "IMPROVED CONTENT:",
          "ENHANCED CONTENT:", "FINAL CONTENT:"]
        let dflt : String × String :=
          (String.mk (pyStripL full_response.toList),
           String.mk (pyCapitalizeL optimization_type.toList) ++ " optimization performed")
        match lines.findIdx? (fun l => markers.any (fun mk => hasSubL mk.toList (pyUpperL l))) with
        | some i =>
          if 0 < i then
            (String.mk (pyStripL (List.intercalate ['\n'] (lines.drop (i + 1)))),
             String.mk (pyStripL (List.intercalate ['\n'] (lines.take i))))
          else dflt
        | none => dflt

/-- `ContentAgent._generate_suggestions`: up to three actionable
suggestions driven by the score and the improvement texts. -/
def generate_suggestions (evaluation : Evaluation) (optimization_performed : Bool) :
    List String :=
  let score := evaluation.score
  let s1 : List String :=
    if optimization_performed then ["Content has been optimized based on expert evaluation"]
    else []
  let s2 : List String :=
    if 17/2 ≤ score then ["This high-quality content is ready for immediate use"]
    else if 7 ≤ score then ["Consider minor refinements before publishing"]
    else ["Review the optimized content before publishing"]
  let imps := evaluation.improvements
  let s3 : List String :=
    if imps.any (fun imp => hasSubL "engagement".toList (pyLowerL imp.toList)) then
      ["Add interactive elements like questions or polls"]
    else []
  let s4 : List String :=
    if imps.any (fun imp => hasSubL "call to action".toList (pyLowerL imp.toList)) then
      ["Strengthen the call-to-action with urgency or incentives"]
    else []
  let s5 : List String :=
    if imps.any (fun imp => hasSubL "clarity".toList (pyLowerL imp.toList)) then
      ["Simplify language for better readability"]
    else []
  let s6 : List String :=
    if 8 ≤ score then ["Consider A/B testing this high-quality content"] else []
  (s1 ++ s2 ++ s3 ++ s4 ++ s5 ++ s6).take 3

/-- Values of the JSON request body (the agent reads strings, a string
list and a boolean out of it). -/
inductive PyVal where
  | s (v : String)
  | l (v : List String)
  | b (v : Bool)
deriving Repr, DecidableEq

/-- A parsed JSON object. -/
abbrev PyDict := List (String × PyVal)

/-- Python `d.get(k)` (`none` models Python `None`). -/
def dGet (d : PyDict) (k : String) : Option PyVal :=
  (d.find? (fun kv => kv.1 == k)).map (·.2)

/-- Python `d.get(k, dflt)` for a string-valued field. -/
def dGetStr (d : PyDict) (k : String) (dflt : String) : String :=
  match dGet d k with
  | some (.s v) => v
  | _ => dflt

/-- Python `d.get(k)` for a string-valued field with no default. -/
def dGetStrOpt (d : PyDict) (k : String) : Option String :=
  match dGet d k with
  | some (.s v) => some v
  | _ => none

/-- The `workflowInfo` sub-dict of the generation result. -/
structure WorkflowInfo where
  initialGenerationCompleted : Bool
  evaluationPerformed : Bool
  evaluationScore : ℚ
  optimizationPerformed : Bool
  optimizationType : String
  optimizationIterations : Nat
  modelUsed : String
deriving Repr, DecidableEq

/-- The `evaluationDetails` sub-dict of the generation result. -/
structure EvaluationDetails where
  criteriaScores : List (String × ℚ)
  strengths : List String
  improvements : List String
deriving Repr, DecidableEq

/-- The `evaluationComparison` dict built after re-evaluating optimized
content. -/
structure EvaluationComparison where
  initialScore : ℚ
  optimizedScore : ℚ
  scoreDifference : ℚ
  initialEvaluation : Evaluation
  optimizedEvaluation : Evaluation
deriving Repr, DecidableEq

/-- The `optimizationDetails` dict added to the result when optimization
ran (timing fields omitted). -/
structure OptimizationDetails where
  initialContent : String
  optimizedContent : String
  optimizationType : String
  improvementReason : String
  evaluationComparison : Option EvaluationComparison
deriving Repr, DecidableEq

/-- The result dict of `ContentAgent.generate_content` (timing and
display-metric fields omitted; `contentType`/`brandVoice` are `Option`
because `request_data.get` yields `None` when the key is absent). -/
structure GenResult where
  content : String
  contentType : Option String
  platform : String
  brandVoice : Option String
  targetAudience : String
  workflowInfo : WorkflowInfo
  evaluationDetails : EvaluationDetails
  suggestions : List String
  modelUsed : String
  optimizationDetails : Option OptimizationDetails
deriving Repr, DecidableEq

/-- Outcome of the three-way threshold ladder (step 3 of
`generate_content`): whether optimization ran, the `optimization_type`
string, the content to carry forward and the optimization reasoning. -/
structure OptOutcome where
  performed : Bool
  otype : String
  content : String
  details : String
deriving Repr, DecidableEq

/-- The threshold ladder of `generate_content` (lines 140-168 of
`content_agent.py`): full optimization below the low threshold, targeted
optimization below the high threshold when the evaluation lists
improvements, otherwise none. -/
def decide_optimization (cfg : AgentCfg) (initial_content : String)
    (evaluation : Evaluation) (optOracle : Except PyErr String) : OptOutcome :=
  if evaluation.score < cfg.low_quality_threshold then
    let p := optimize_content initial_content evaluation "full" optOracle
    ⟨true, "full", p.1, p.2⟩
  else if evaluation.score < cfg.high_quality_threshold ∧ evaluation.improvements ≠ [] then
    let p := optimize_content initial_content evaluation "targeted" optOracle
    ⟨true, "targeted", p.1, p.2⟩
  else
    ⟨false, "none", initial_content, ""⟩

/-- `ContentAgent.generate_content`: generate (oracle `initialResult`),
evaluate, run the threshold ladder, re-evaluate when optimization ran,
and assemble the result dict — including the post-construction mutations
of the Python code (the `evaluationScore` override and the
`optimizationDetails` insertion).  An exception in the initial generation
propagates, as in the Python `try`/`raise`. -/
def generate_content (cfg : AgentCfg) (initialResult : Except PyErr String)
    (evalOracle : String → Except PyErr String) (optOracle : Except PyErr String)
    (request_data : PyDict) : Except PyErr GenResult :=
  let content_type := dGetStrOpt request_data "contentType"
  let brand_voice := dGetStrOpt request_data "brandVoice"
  let platform := dGetStr request_data "platform" "general"
  let target_audience := dGetStr request_data "targetAudience" "general audience"
  match initialResult with
  | .error e => .error e
  | .ok initial_content =>
    let evaluation := evaluate_content (evalOracle initial_content)
    let score := evaluation.score
    let oc := decide_optimization cfg initial_content evaluation optOracle
    let optimized_evaluation : Option Evaluation :=
      if oc.performed then some (evaluate_content (evalOracle oc.content)) else none
    let evaluation_comparison : Option EvaluationComparison :=
      match optimized_evaluation with
      | some oe => some ⟨score, oe.score, oe.score - score, evaluation, oe⟩
      | none => none
    let result : GenResult :=
      { content := if oc.performed then oc.content else initial_content
        contentType := content_type
        platform := platform
        brandVoice := brand_voice
        targetAudience := target_audience
        workflowInfo :=
          { initialGenerationCompleted := true
            evaluationPerformed := true
            evaluationScore := score
            optimizationPerformed := oc.performed
            optimizationType := oc.otype
            optimizationIterations := if oc.performed then 1 else 0
            modelUsed := model_name }
        evaluationDetails :=
          ⟨evaluation.criteriaScores, evaluation.strengths, evaluation.improvements⟩
        suggestions := generate_suggestions evaluation oc.performed
        modelUsed := model_name
        optimizationDetails := none }
    let result :=
      match optimized_evaluation with
      | some oe =>
        { result with workflowInfo := { result.workflowInfo with evaluationScore := oe.score } }
      | none => result
    let result :=
      if oc.performed then
        { result with
          optimizationDetails :=
            some ⟨initial_content, oc.content, oc.otype, oc.details, evaluation_comparison⟩ }
      else result
    .ok result

/-! ## Flask HTTP surface

Embedding of the route handlers of `src/agents/app.py`.  A request body
is the already-parsed JSON (`none` when the request carried no JSON).
Responses are modelled as a status code plus the optional JSON members
the handlers emit.  Flask's own 405 method-mismatch responses are not
modelled: in this dispatch a (method, path) pair matching no registered
route falls to the 404 handler, which is the behavior the claims touch
(no route is registered for `/config` under any method). -/

/-- HTTP method of a request. -/
inductive Method where
  | GET | POST
deriving Repr, DecidableEq

/-- A JSON response plus status code.  Fields are the optional members
the various handlers place in their JSON bodies. -/
structure AppResponse where
  status : Nat
  error : Option String
  message : Option String
  missing_fields : Option (List String)
  available_endpoints : Option (List String)
  result : Option GenResult
  evaluation : Option Evaluation
  content : Option String
  contentType : Option String
  agent_status : Option String
deriving Repr, DecidableEq

/-- A response carrying nothing but a status code. -/
def bareResponse (status : Nat) : AppResponse :=
  ⟨status, none, none, none, none, none, none, none, none, none⟩

/-- The 503 body both POST handlers return when the agent is `None`. -/
def agentUnavailableResponse (withMessage : Bool) : AppResponse :=
  { bareResponse 503 with
    error := some "Content agent not initialized",
    message := if withMessage then some "Service is not ready. Check API key configuration." else none }

/-- The 400 body for a missing/empty JSON request body on `/generate`. -/
def noJsonResponse : AppResponse :=
  { bareResponse 400 with
    error := some "No JSON data provided",
    message := some "Request body must contain valid JSON" }

/-- The required request fields of `/generate`. -/
def required_fields : List String := ["contentType", "brandVoice", "topic"]

/-- The Flask `generate_content` view (`POST /generate`): 503 when the
agent failed to initialize, 400 for a missing/empty body, 400 listing
the missing required fields, then the agent call with `ValueError ↦ 400`
and any other exception `↦ 500`. -/
def generate_handler (content_agent : Option AgentCfg)
    (initialResult : Except PyErr String) (evalOracle : String → Except PyErr String)
    (optOracle : Except PyErr String) (body : Option PyDict) : AppResponse :=
  match content_agent with
  | none => agentUnavailableResponse true
  | some cfg =>
    match body with
    | none => noJsonResponse
    | some data =>
      if data.isEmpty then noJsonResponse
      else
        let missing := required_fields.filter (fun f => !data.any (fun kv => kv.1 == f))
        if !missing.isEmpty then
          { bareResponse 400 with
            error := some "Missing required fields",
            missing_fields := some missing,
            message := some "Request must include: contentType, brandVoice, topic" }
        else
          match generate_content cfg initialResult evalOracle optOracle data with
          | .ok r => { bareResponse 200 with result := some r }
          | .error (.valueError m) =>
            { bareResponse 400 with error := some "Invalid input", message := some m }
          | .error (.exc m) =>
            { bareResponse 500 with error := some "Generation failed", message := some m }

/-- The Flask `evaluate_content` view (`POST /evaluate`): 503 when the
agent failed to initialize, 400 when the body is missing/empty or lacks
`content`, else the standalone evaluation. -/
def evaluate_handler (content_agent : Option AgentCfg)
    (evalOracle : String → Except PyErr String) (body : Option PyDict) : AppResponse :=
  match content_agent with
  | none => agentUnavailableResponse false
  | some _ =>
    let missingContent : AppResponse :=
      { bareResponse 400 with error := some "Missing required field 'content'" }
    match body with
    | none => missingContent
    | some data =>
      if data.isEmpty || !data.any (fun kv => kv.1 == "content") then missingContent
      else
        let content := dGetStr data "content" ""
        let content_type := dGetStr data "contentType" "general"
        let evaluation := evaluate_content (evalOracle content)
        { bareResponse 200 with
          evaluation := some evaluation,
          content := some content,
          contentType := some content_type }

/-- The Flask `health_check` view (`GET /health`). -/
def health_handler (content_agent : Option AgentCfg) : AppResponse :=
  { bareResponse 200 with
    agent_status := some (if content_agent.isSome then "healthy" else "unhealthy") }

/-- The Flask `stream_progress` view (`GET /stream/<task_id>`): a canned
completed-progress payload. -/
def stream_handler : AppResponse :=
  { bareResponse 200 with message := some "Content generation completed" }

/-- The Flask 404 handler (`not_found` in `app.py`), listing the
registered endpoints. -/
def not_found_response : AppResponse :=
  { bareResponse 404 with
    error := some "Not found",
    message := some "The requested endpoint does not exist",
    available_endpoints := some ["/health", "/generate", "/stream/<task_id>", "/evaluate"] }

/-- Route dispatch of the Flask app: the four registered routes of
`app.py`, everything else falling to the 404 handler. -/
def app_dispatch (m : Method) (path : String) (content_agent : Option AgentCfg)
    (initialResult : Except PyErr String) (evalOracle : String → Except PyErr String)
    (optOracle : Except PyErr String) (body : Option PyDict) : AppResponse :=
  if m = .GET ∧ path = "/health" then health_handler content_agent
  else if m = .POST ∧ path = "/generate" then
    generate_handler content_agent initialResult evalOracle optOracle body
  else if m = .GET ∧ startsWithL path.toList "/stream/".toList = true then stream_handler
  else if m = .POST ∧ path = "/evaluate" then evaluate_handler content_agent evalOracle body
  else not_found_response

/-! ## The FastAPI feedback-loop service

Embedding of `generate_with_feedback_loop`, `self_evaluate` and
`improve_text` from `src/ai-agent/generator.py`.  The two transformers
pipelines are abstracted as `String → String` functions from prompt to
generated text (the `max_new_tokens` arguments and the `[0]
["generated_text"]` projection are absorbed into the oracle). -/

/-- One entry of the `history` list of the feedback loop. -/
structure IterEntry where
  iteration : Nat
  text : String
  evaluation : String
deriving Repr, DecidableEq

/-- The dict returned by `generate_with_feedback_loop`; the early-return
dict has no `note` key, modelled as `note = none`. -/
structure LoopResult where
  final_text : String
  iterations : List IterEntry
  note : Option String
deriving Repr, DecidableEq

/-- `self_evaluate` from `generator.py`. -/
def self_evaluate (evaluate_pipe : String → String) (text : String) : String :=
  evaluate_pipe ("Is the following text good? Answer yes or no and explain:\n\n" ++ text)

/-- `improve_text` from `generator.py`. -/
def improve_text (generate_pipe : String → String) (text : String) : String :=
  generate_pipe ("Improve the following text:\n\n" ++ text)

/-- The `for i in range(max_iterations)` loop of
`generate_with_feedback_loop`: `rem` counts the remaining iterations
while `i` is the Python loop index. -/
def feedback_loop_go (generate_pipe evaluate_pipe : String → String) :
    Nat → Nat → String → List IterEntry → LoopResult
  | 0, _, current_text, history =>
    { final_text := current_text, iterations := history,
      note := some "Returned after max iterations" }
  | rem + 1, i, current_text, history =>
    let evaluation := self_evaluate evaluate_pipe current_text
    let history' := history ++ [⟨i + 1, current_text, evaluation⟩]
    if hasSubL "yes".toList (pyLowerL evaluation.toList) then
      { final_text := current_text, iterations := history', note := none }
    else
      feedback_loop_go generate_pipe evaluate_pipe rem (i + 1)
        (improve_text generate_pipe current_text) history'

/-- `generate_with_feedback_loop` from `generator.py`. -/
def generate_with_feedback_loop (generate_pipe evaluate_pipe : String → String)
    (prompt : String) (max_iterations : Nat) : LoopResult :=
  feedback_loop_go generate_pipe evaluate_pipe max_iterations 0 (generate_pipe prompt) []

/-- The text evaluated at (0-based) iteration `k` of the feedback loop:
the generated draft, then successive improvements. -/
def loop_text_at (generate_pipe : String → String) (prompt : String) : Nat → String
  | 0 => generate_pipe prompt
  | k + 1 => improve_text generate_pipe (loop_text_at generate_pipe prompt k)

/-! ## Specification-side definitions

`spec_optimization_decision` is stated from the specification's words
("`s < 7.0` ⇒ full; `7.0 ≤ s < 8.5` with a non-empty improvements list ⇒
targeted; otherwise ⇒ none") to be compared with the ladder embedded in
`generate_content`.  The remaining definitions are concrete fixtures used
to instantiate universally quantified theorems. -/

/-- The three optimization decisions the spec names. -/
inductive OptDecision where
  | full | targeted | noOpt
deriving Repr, DecidableEq

/-- The decision procedure exactly as the spec states it. -/
def spec_optimization_decision (s : ℚ) (improvements : List String) : OptDecision :=
  if s < 7 then .full
  else if 7 ≤ s ∧ s < 17/2 ∧ improvements ≠ [] then .targeted
  else .noOpt

/-- The `optimization_type` string the agent reports for a decision. -/
def OptDecision.label : OptDecision → String
  | .full => "full"
  | .targeted => "targeted"
  | .noOpt => "none"

/-- Whether a decision performs any optimization. -/
def OptDecision.isOpt : OptDecision → Bool
  | .noOpt => false
  | _ => true

/-- The example request of the spec: a social post, professional voice,
topic `x`, platform `twitter`. -/
def exampleRequest : PyDict :=
  [("contentType", .s "social_post"), ("brandVoice", .s "professional"),
   ("topic", .s "x"), ("platform", .s "twitter")]

/-- A stubbed evaluation model that always scores 9. -/
def score9Oracle : String → Except PyErr String := fun _ => .ok "OVERALL_SCORE: 9"

/-- A request fixture for the workflow-bookkeeping witness. -/
def w9Request : PyDict :=
  [("contentType", .s "blog_post"), ("brandVoice", .s "casual"), ("topic", .s "y")]

/-- A stubbed evaluation model scoring 8 with one improvement (the
targeted-optimization band). -/
def w9Oracle : String → Except PyErr String :=
  fun _ => .ok "OVERALL_SCORE: 8\nIMPROVEMENTS:\n1. Tighten intro"

/-- A stubbed model whose every answer is the empty string. -/
def nullOracle : String → Except PyErr String := fun _ => .ok ""

/-- A generation pipeline fixture for the feedback-loop witness. -/
def gpW : String → String := fun s => if s = "p" then "t0" else "better"

/-- An evaluation pipeline fixture: approves once the text mentions
`better`. -/
def epW : String → String :=
  fun s => if hasSubL "better".toList s.toList then "yes" else "no"

/-! ## Theorems -/

/-- C5: whenever the content agent failed to initialize (`content_agent`
is `None`), every `POST /generate` and every `POST /evaluate` request
returns status 503 — and in particular never 500 — regardless of the
request body. -/
theorem agent_unavailable_503 (initialResult : Except PyErr String)
    (evalOracle : String → Except PyErr String) (optOracle : Except PyErr String)
    (body : Option PyDict) :
    (generate_handler none initialResult evalOracle optOracle body).status = 503 ∧
    (evaluate_handler none evalOracle body).status = 503 ∧
    (generate_handler none initialResult evalOracle optOracle body).status ≠ 500 ∧
    (evaluate_handler none evalOracle body).status ≠ 500 := by
  refine ⟨rfl, rfl, ?_, ?_⟩ <;> simp [generate_handler, evaluate_handler,
    agentUnavailableResponse, bareResponse]

/-- C6: an exception in the model call of `_evaluate_content` is not
propagated: the function returns the hardcoded default evaluation
(score 6.5, fixed criteria scores, fixed strengths and improvements,
`needsImprovement = True`, and a `rawEvaluation` carrying the exception
message). -/
theorem evaluate_content_default_on_error (e : PyErr) :
    (evaluate_content (.error e)).score = 6.5 ∧
    (evaluate_content (.error e)).criteriaScores =
      [("brandVoice", 6.5), ("platformFit", 6.5), ("keyMessages", 6.5),
       ("audienceEngagement", 6.5), ("clarity", 6.5), ("callToAction", 6.5),
       ("overallQuality", 6.5)] ∧
    (evaluate_content (.error e)).strengths = ["Content generated successfully"] ∧
    (evaluate_content (.error e)).improvements =
      ["Refine messaging to better match brand voice",
       "Improve clarity for target audience"] ∧
    (evaluate_content (.error e)).needsImprovement = true ∧
    (evaluate_content (.error e)).optimizationGuidance =
      "Revise to better capture the brand voice and clarify messaging" ∧
    (evaluate_content (.error e)).rawEvaluation = "Evaluation failed: " ++ e.msg := by
  refine ⟨?_, ?_, rfl, rfl, rfl, rfl, rfl⟩ <;> norm_num [evaluate_content]

/-- C7: evaluation parsing is idempotent through the `rawEvaluation`
field: the evaluation built from a model text `t` carries `t` itself as
`rawEvaluation`, and re-parsing that text yields the same parse — in
particular the same score, strengths and improvements. -/
theorem parse_idempotent_on_raw (t : String) :
    (evaluate_content (.ok t)).rawEvaluation = t ∧
    parse_evaluation_response ((evaluate_content (.ok t)).rawEvaluation) =
      parse_evaluation_response t ∧
    (parse_evaluation_response ((evaluate_content (.ok t)).rawEvaluation)).score =
      (parse_evaluation_response t).score ∧
    (parse_evaluation_response ((evaluate_content (.ok t)).rawEvaluation)).strengths =
      (parse_evaluation_response t).strengths ∧
    (parse_evaluation_response ((evaluate_content (.ok t)).rawEvaluation)).improvements =
      (parse_evaluation_response t).improvements := by
  have hraw : (evaluate_content (.ok t)).rawEvaluation = t := rfl
  exact ⟨hraw, by rw [hraw], by rw [hraw], by rw [hraw], by rw [hraw]⟩

/-- C10: whenever the parsed overall score is strictly below 7, the final
step of `_parse_evaluation_response` forces `needsImprovement` to `True`,
overriding any explicitly parsed `NEEDS_OPTIMIZATION: NO` flag. -/
theorem low_score_forces_needs_improvement (t : String)
    (h : (parse_evaluation_response t).score < 7) :
    (parse_evaluation_response t).needsImprovement = true := by
  unfold parse_evaluation_response at h ⊢
  dsimp only at h ⊢
  rw [if_pos h]

/-- C10 witness: the text `OVERALL_SCORE: 5` + `NEEDS_OPTIMIZATION: NO`
parses to score 5 < 7, and `needsImprovement` comes out `True` despite
the explicit `NO`. -/
theorem low_score_forces_needs_improvement_witness :
    (parse_evaluation_response "OVERALL_SCORE: 5\nNEEDS_OPTIMIZATION: NO").score < 7 ∧
    (parse_evaluation_response "OVERALL_SCORE: 5\nNEEDS_OPTIMIZATION: NO").needsImprovement = true :=
  ⟨by decide, low_score_forces_needs_improvement _ (by decide)⟩

/-- C3 counterexample: no `/config` route exists.  Both `GET /config`
and `POST /config` fall to the 404 handler, whose own endpoint list does
not mention `/config`. -/
theorem config_endpoint_counterexample :
    (app_dispatch .GET "/config" (some defaultCfg) (.ok "") nullOracle (.ok "") none).status = 404 ∧
    (app_dispatch .POST "/config" (some defaultCfg) (.ok "") nullOracle (.ok "") none).status = 404 ∧
    (app_dispatch .POST "/config" (some defaultCfg) (.ok "") nullOracle (.ok "") none).available_endpoints =
      some ["/health", "/generate", "/stream/<task_id>", "/evaluate"] ∧
    "/config" ∉ (["/health", "/generate", "/stream/<task_id>", "/evaluate"] : List String) := by
  decide

/-- C3 amended: the service exposes no `/config` endpoint at all; a
request to `/config` under any method, agent state and body receives the
404 not-found response (the thresholds are set only from environment
variables at initialization). -/
theorem config_endpoint_not_routed (m : Method) (content_agent : Option AgentCfg)
    (initialResult : Except PyErr String) (evalOracle : String → Except PyErr String)
    (optOracle : Except PyErr String) (body : Option PyDict) :
    app_dispatch m "/config" content_agent initialResult evalOracle optOracle body =
      not_found_response := by
  cases m <;> rfl

/-- C4 counterexample: the empty JSON object `{}` omits all three
required fields, yet the response (status 400) carries no
`missing_fields` list at all — it is the distinct `No JSON data provided`
error, so the claim's "missing_fields contains exactly the omitted
subset" fails for this body. -/
theorem missing_fields_empty_body_counterexample :
    (generate_handler (some defaultCfg) (.ok "") nullOracle (.ok "") (some [])).status = 400 ∧
    (generate_handler (some defaultCfg) (.ok "") nullOracle (.ok "") (some [])).missing_fields = none ∧
    (generate_handler (some defaultCfg) (.ok "") nullOracle (.ok "") (some [])).error =
      some "No JSON data provided" := by
  decide

/-- C4 amended: for every non-empty request body that omits a non-empty
subset of the required fields `contentType`, `brandVoice`, `topic` (with
the agent initialized), the response status is 400 and its
`missing_fields` list is exactly the omitted subset; the empty body
instead receives the separate `No JSON data provided` 400 error without a
`missing_fields` list. -/
theorem missing_fields_exact (cfg : AgentCfg) (initialResult : Except PyErr String)
    (evalOracle : String → Except PyErr String) (optOracle : Except PyErr String)
    (data : PyDict) (hne : data ≠ [])
    (hmiss : required_fields.filter (fun f => !data.any (fun kv => kv.1 == f)) ≠ []) :
    (generate_handler (some cfg) initialResult evalOracle optOracle (some data)).status = 400 ∧
    (generate_handler (some cfg) initialResult evalOracle optOracle (some data)).missing_fields =
      some (required_fields.filter (fun f => !data.any (fun kv => kv.1 == f))) ∧
    ∀ f, f ∈ required_fields.filter (fun f => !data.any (fun kv => kv.1 == f)) ↔
      (f ∈ required_fields ∧ f ∉ data.map Prod.fst) := by
  have hemp : data.isEmpty = false := by
    cases data with
    | nil => exact absurd rfl hne
    | cons a l => rfl
  have hmb : (required_fields.filter (fun f => !data.any (fun kv => kv.1 == f))).isEmpty = false := by
    cases hq : required_fields.filter (fun f => !data.any (fun kv => kv.1 == f)) with
    | nil => exact absurd hq hmiss
    | cons a l => rfl
  refine ⟨?_, ?_, ?_⟩
  · simp [generate_handler, hemp, hmb, bareResponse]
  · simp [generate_handler, hemp, hmb, bareResponse]
  · intro f
    simp only [List.mem_filter, List.mem_map, Bool.not_eq_true', List.any_eq_false,
      beq_iff_eq, and_congr_right_iff]
    intro _
    constructor
    · intro h ⟨kv, hkv, hf⟩
      exact (h kv hkv) hf
    · intro h kv hkv
      by_contra hc
      exact h ⟨kv, hkv, hc⟩

/-- C4 witness: a body containing only `topic` yields a 400 whose
`missing_fields` is exactly `["contentType", "brandVoice"]`. -/
theorem missing_fields_exact_witness :
    (generate_handler (some defaultCfg) (.ok "") nullOracle (.ok "")
      (some [("topic", PyVal.s "x")])).status = 400 ∧
    (generate_handler (some defaultCfg) (.ok "") nullOracle (.ok "")
      (some [("topic", PyVal.s "x")])).missing_fields =
      some ["contentType", "brandVoice"] := by
  have h := missing_fields_exact defaultCfg (.ok "") nullOracle (.ok "")
    [("topic", PyVal.s "x")] (by decide) (by decide)
  exact ⟨h.1, h.2.1.trans (by decide)⟩

/-- The embedded threshold ladder agrees with the spec's decision
procedure at the default thresholds (helper shared by the workflow
theorems). -/
theorem decide_optimization_matches_spec (c : String) (e : Evaluation)
    (o : Except PyErr String) :
    (decide_optimization defaultCfg c e o).otype =
      (spec_optimization_decision e.score e.improvements).label ∧
    (decide_optimization defaultCfg c e o).performed =
      (spec_optimization_decision e.score e.improvements).isOpt := by
  by_cases h1 : e.score < 7
  · constructor <;>
      simp [decide_optimization, spec_optimization_decision, defaultCfg, h1,
        OptDecision.label, OptDecision.isOpt]
  · by_cases h2 : e.score < 17/2 ∧ e.improvements ≠ []
    · have h7 : (7 : ℚ) ≤ e.score := not_lt.mp h1
      constructor <;>
        simp [decide_optimization, spec_optimization_decision, defaultCfg, h1, h2, h7,
          OptDecision.label, OptDecision.isOpt]
    · have h3 : ¬((7 : ℚ) ≤ e.score ∧ e.score < 17/2 ∧ e.improvements ≠ []) := by
        intro hx
        exact h2 ⟨hx.2.1, hx.2.2⟩
      constructor <;>
        simp [decide_optimization, spec_optimization_decision, defaultCfg, h1, h2, h3,
          OptDecision.label, OptDecision.isOpt]

/-- Projection of a successful `generate_content` run onto its workflow
bookkeeping: the reported optimization type and flag are those of the
threshold ladder on the initial evaluation, and `evaluationPerformed` is
the hardcoded `True` (helper shared by the workflow theorems). -/
theorem generate_content_ok_workflow (cfg : AgentCfg) (init : String)
    (evalOracle : String → Except PyErr String) (optOracle : Except PyErr String)
    (data : PyDict) (r : GenResult)
    (h : generate_content cfg (.ok init) evalOracle optOracle data = .ok r) :
    r.workflowInfo.optimizationType =
      (decide_optimization cfg init (evaluate_content (evalOracle init)) optOracle).otype ∧
    r.workflowInfo.optimizationPerformed =
      (decide_optimization cfg init (evaluate_content (evalOracle init)) optOracle).performed ∧
    r.workflowInfo.evaluationPerformed = true := by
  unfold generate_content at h
  simp only [Except.ok.injEq] at h
  subst h
  cases hp : (decide_optimization cfg init (evaluate_content (evalOracle init)) optOracle).performed <;>
    simp [hp]

/-- C1: for every successful run at the default thresholds, the decision
of `generate_content` is the spec's three-way ladder on the initial
evaluation: score below 7 gives a full optimization, score in `[7, 8.5)`
with a non-empty improvements list gives a targeted one, and otherwise no
optimization is performed. -/
theorem generate_content_threshold_ladder (init : String)
    (evalOracle : String → Except PyErr String) (optOracle : Except PyErr String)
    (data : PyDict) (r : GenResult)
    (h : generate_content defaultCfg (.ok init) evalOracle optOracle data = .ok r) :
    r.workflowInfo.optimizationType =
      (spec_optimization_decision (evaluate_content (evalOracle init)).score
        (evaluate_content (evalOracle init)).improvements).label ∧
    r.workflowInfo.optimizationPerformed =
      (spec_optimization_decision (evaluate_content (evalOracle init)).score
        (evaluate_content (evalOracle init)).improvements).isOpt := by
  have hw := generate_content_ok_workflow defaultCfg init evalOracle optOracle data r h
  have hd := decide_optimization_matches_spec init (evaluate_content (evalOracle init)) optOracle
  exact ⟨hw.1.trans hd.1, hw.2.1.trans hd.2⟩

/-- C1 witness: the spec's example — a social-post request with a stubbed
model returning score 9 — yields `optimizationPerformed = false` and
optimization type `none`. -/
theorem generate_content_threshold_ladder_witness :
    (generate_content defaultCfg (.ok "draft") score9Oracle (.ok "") exampleRequest).map
      (fun r => (r.workflowInfo.optimizationPerformed, r.workflowInfo.optimizationType)) =
      .ok (false, "none") := by
  obtain ⟨r, hr⟩ :
      ∃ r, generate_content defaultCfg (.ok "draft") score9Oracle (.ok "") exampleRequest = .ok r :=
    ⟨_, rfl⟩
  have h := generate_content_threshold_ladder "draft" score9Oracle (.ok "") exampleRequest r hr
  rw [hr]
  simp only [Except.map]
  rw [h.1, h.2]
  have hs : (evaluate_content (score9Oracle "draft")).score = 9 := by decide
  have hi : (evaluate_content (score9Oracle "draft")).improvements = [] := by decide
  rw [hs, hi]
  norm_num [spec_optimization_decision, OptDecision.isOpt, OptDecision.label]

/-- C9: every result returned by `generate_content` reports
`workflowInfo.evaluationPerformed = True` — the field is the hardcoded
constant of the result dict, independent of the request and oracles. -/
theorem evaluation_performed_hardcoded_true (cfg : AgentCfg)
    (initialResult : Except PyErr String) (evalOracle : String → Except PyErr String)
    (optOracle : Except PyErr String) (data : PyDict) (r : GenResult)
    (h : generate_content cfg initialResult evalOracle optOracle data = .ok r) :
    r.workflowInfo.evaluationPerformed = true := by
  cases initialResult with
  | error e => simp [generate_content] at h
  | ok init =>
    exact (generate_content_ok_workflow cfg init evalOracle optOracle data r h).2.2

/-- C9 witness: a concrete run through the targeted-optimization band
still reports `evaluationPerformed = true`. -/
theorem evaluation_performed_hardcoded_true_witness :
    (generate_content defaultCfg (.ok "body text") w9Oracle (.ok "") w9Request).map
      (fun r => r.workflowInfo.evaluationPerformed) = .ok true := by
  obtain ⟨r, hr⟩ :
      ∃ r, generate_content defaultCfg (.ok "body text") w9Oracle (.ok "") w9Request = .ok r :=
    ⟨_, rfl⟩
  have h := evaluation_performed_hardcoded_true defaultCfg (.ok "body text") w9Oracle
    (.ok "") w9Request r hr
  rw [hr]
  simp only [Except.map]
  rw [h]

/-- Invariant of the feedback loop (helper for the trace theorem): if the
accumulated history records iterations `1..i` faithfully and the current
text is the `i`-th of the text sequence, the loop's final history is at
most `i + rem` long and records every iteration faithfully. -/
theorem feedback_loop_go_spec (gp ep : String → String) (prompt : String) :
    ∀ (rem i : Nat) (history : List IterEntry),
      history.length = i →
      (∀ j, j < i → history[j]? =
        some ⟨j + 1, loop_text_at gp prompt j, self_evaluate ep (loop_text_at gp prompt j)⟩) →
      (feedback_loop_go gp ep rem i (loop_text_at gp prompt i) history).iterations.length ≤ i + rem ∧
      ∀ j, j < (feedback_loop_go gp ep rem i (loop_text_at gp prompt i) history).iterations.length →
        (feedback_loop_go gp ep rem i (loop_text_at gp prompt i) history).iterations[j]? =
          some ⟨j + 1, loop_text_at gp prompt j, self_evaluate ep (loop_text_at gp prompt j)⟩ := by
  intro rem
  induction rem with
  | zero =>
    intro i history hlen hent
    refine ⟨?_, ?_⟩
    · simp only [feedback_loop_go, hlen, Nat.add_zero, le_refl]
    · intro j hj
      simp only [feedback_loop_go] at hj ⊢
      exact hent j (hlen ▸ hj)
  | succ rem ih =>
    intro i history hlen hent
    simp only [feedback_loop_go]
    have hent' : ∀ j, j < i + 1 →
        (history ++ [⟨i + 1, loop_text_at gp prompt i,
          self_evaluate ep (loop_text_at gp prompt i)⟩])[j]? =
        some ⟨j + 1, loop_text_at gp prompt j, self_evaluate ep (loop_text_at gp prompt j)⟩ := by
      intro j hj
      rcases Nat.lt_or_ge j i with hji | hji
      · rw [List.getElem?_append_left (hlen ▸ hji)]
        exact hent j hji
      · have hj_eq : j = i := by omega
        subst hj_eq
        rw [List.getElem?_append_right (le_of_eq hlen)]
        rw [hlen]
        simp
    have hlen' :
        (history ++ [(⟨i + 1, loop_text_at gp prompt i,
          self_evaluate ep (loop_text_at gp prompt i)⟩ : IterEntry)]).length = i + 1 := by
      simp [hlen]
    by_cases hyes :
        hasSubL "yes".toList (pyLowerL (self_evaluate ep (loop_text_at gp prompt i)).toList) = true
    · rw [if_pos hyes]
      refine ⟨?_, ?_⟩
      · simp only [hlen']
        omega
      · intro j hj
        simp only [hlen'] at hj
        exact hent' j hj
    · rw [if_neg hyes]
      have hrec := ih (i + 1)
        (history ++ [⟨i + 1, loop_text_at gp prompt i,
          self_evaluate ep (loop_text_at gp prompt i)⟩]) hlen' hent'
      have hstep : improve_text gp (loop_text_at gp prompt i) = loop_text_at gp prompt (i + 1) := rfl
      rw [hstep]
      refine ⟨?_, hrec.2⟩
      calc (feedback_loop_go gp ep rem (i + 1) (loop_text_at gp prompt (i + 1))
              (history ++ [⟨i + 1, loop_text_at gp prompt i,
                self_evaluate ep (loop_text_at gp prompt i)⟩])).iterations.length
          ≤ (i + 1) + rem := hrec.1
        _ = i + (rem + 1) := by omega

/-- C8: for every prompt and bound, `generate_with_feedback_loop`
terminates (it is a total function of its oracles) with an iteration
trace of length at most `max_iterations`, whose `i`-th entry records
iteration number `i + 1`, the text evaluated at that iteration, and that
text's evaluation; the returned dict also carries a `final_text` string.
-/
theorem feedback_loop_trace_bounded (gp ep : String → String) (prompt : String)
    (max_iterations : Nat) :
    (generate_with_feedback_loop gp ep prompt max_iterations).iterations.length ≤ max_iterations ∧
    ∀ i, i < (generate_with_feedback_loop gp ep prompt max_iterations).iterations.length →
      (generate_with_feedback_loop gp ep prompt max_iterations).iterations[i]? =
        some ⟨i + 1, loop_text_at gp prompt i, self_evaluate ep (loop_text_at gp prompt i)⟩ := by
  have h := feedback_loop_go_spec gp ep prompt max_iterations 0 [] rfl
    (by intro j hj; exact absurd hj (Nat.not_lt_zero j))
  constructor
  · simpa [generate_with_feedback_loop, loop_text_at] using h.1
  · intro i hi
    have hi' : i < (feedback_loop_go gp ep max_iterations 0 (loop_text_at gp prompt 0)
        []).iterations.length := by
      simpa [generate_with_feedback_loop, loop_text_at] using hi
    simpa [generate_with_feedback_loop, loop_text_at] using h.2 i hi'

/-- C8 witness: with concrete pipelines approving at the second
iteration, a bound of 2 yields a trace of length at most 2 whose first
entry is iteration 1 with the draft text and its evaluation. -/
theorem feedback_loop_trace_bounded_witness :
    (generate_with_feedback_loop gpW epW "p" 2).iterations.length ≤ 2 ∧
    (generate_with_feedback_loop gpW epW "p" 2).iterations[0]? =
      some ⟨1, "t0", "no"⟩ := by
  have h := feedback_loop_trace_bounded gpW epW "p" 2
  refine ⟨h.1, ?_⟩
  have hlen : (generate_with_feedback_loop gpW epW "p" 2).iterations.length = 2 := rfl
  have h0 := h.2 0 (by rw [hlen]; omega)
  rw [h0]
  rfl

/-! Helper lemmas about the string primitives, used to evaluate the
parser on the `OVERALL_SCORE:` line family. -/

/-- `dropWhile` is the identity when the head does not satisfy the
predicate. -/
theorem dropWhile_head_false (p : Char → Bool) (s : List Char)
    (h : ∀ c, s.head? = some c → p c = false) : s.dropWhile p = s := by
  cases s with
  | nil => rfl
  | cons c t =>
    rw [List.dropWhile_cons, h c rfl]
    simp

/-- `strip()` is the identity when neither end is whitespace. -/
theorem pyStripL_eq_self (s : List Char)
    (h1 : ∀ c, s.head? = some c → isPyWs c = false)
    (h2 : ∀ c, s.reverse.head? = some c → isPyWs c = false) : pyStripL s = s := by
  unfold pyStripL
  rw [dropWhile_head_false isPyWs s h1, dropWhile_head_false isPyWs s.reverse h2,
    List.reverse_reverse]

/-- Splitting on a separator that does not occur yields the whole string
as one field. -/
theorem splitOnCharL_eq_single (sep : Char) (s : List Char) (h : sep ∉ s) :
    splitOnCharL sep s = [s] := by
  induction s with
  | nil => rfl
  | cons c t ih =>
    have hcs : (c == sep) = false := by
      simp only [beq_eq_false_iff_ne, ne_eq]
      intro hc
      exact h (hc ▸ List.mem_cons_self c t)
    have ht : sep ∉ t := fun hm => h (List.mem_cons_of_mem c hm)
    simp only [splitOnCharL, hcs, ih ht]
    simp

/-- A string always starts with its own prefix. -/
theorem startsWithL_append_self (a s : List Char) : startsWithL (a ++ s) a = true := by
  induction a with
  | nil =>
    cases s <;> rfl
  | cons c t ih => simp [startsWithL, ih]

/-- `startswith` fails when the first characters differ. -/
theorem startsWithL_cons_ne (c d : Char) (cs ds : List Char) (h : c ≠ d) :
    startsWithL (c :: cs) (d :: ds) = false := by
  simp [startsWithL, h]

/-- `replace` leaves a string untouched when the pattern head does not
occur in it, whatever the fuel. -/
theorem replAux_no_head (p : Char) (ps : List Char) :
    ∀ (fuel : Nat) (rest : List Char), p ∉ rest → replAux (p :: ps) fuel rest = rest := by
  intro fuel
  induction fuel with
  | zero => intro rest _; rfl
  | succ fuel ih =>
    intro rest hp
    cases rest with
    | nil => simp [replAux, startsWithL]
    | cons c t =>
      have hcp : c ≠ p := fun h => hp (h ▸ List.mem_cons_self c t)
      have hpt : p ∉ t := fun hm => hp (List.mem_cons_of_mem c hm)
      simp [replAux, startsWithL_cons_ne c p t ps hcp, ih t hpt]

/-- `replace(pat, "")` on `pat ++ rest` removes exactly the leading
pattern when the pattern head does not occur in `rest`. -/
theorem replaceAllL_strip_label (p : Char) (ps rest : List Char) (hp : p ∉ rest) :
    replaceAllL (p :: ps) ((p :: ps) ++ rest) = rest := by
  unfold replaceAllL
  have hlen : ((p :: ps) ++ rest).length = (ps.length + rest.length) + 1 := by
    simp [List.length_append]
  rw [hlen]
  simp only [replAux, startsWithL_append_self, List.isEmpty_cons, Bool.not_false,
    Bool.and_self, if_true]
  rw [List.drop_left]
  exact replAux_no_head p ps _ rest hp

/-- A digit character differs from any non-digit character. -/
theorem digit_ne_of (c : Char) (hd : c.isDigit = true) (x : Char) (hx : x.isDigit = false) :
    c ≠ x := by
  intro h
  rw [h, hx] at hd
  exact Bool.false_ne_true hd

/-- Digits are not Python whitespace. -/
theorem isPyWs_of_digit (c : Char) (hd : c.isDigit = true) : isPyWs c = false := by
  have h := fun (x : Char) (hx : x.isDigit = false) => digit_ne_of c hd x hx
  simp only [isPyWs, Bool.or_eq_false_iff, beq_eq_false_iff_ne, ne_eq]
  exact ⟨⟨⟨⟨⟨h ' ' (by decide), h '\t' (by decide)⟩, h '\n' (by decide)⟩,
    h '\r' (by decide)⟩, h '\x0b' (by decide)⟩, h '\x0c' (by decide)⟩

/-- The head of a list is one of its members. -/
theorem mem_of_head?_eq (l : List Char) (c : Char) (h : l.head? = some c) : c ∈ l := by
  cases l with
  | nil => simp at h
  | cons a t =>
    rw [List.head?_cons] at h
    injection h with h
    subst h
    exact List.mem_cons_self a t

/-- `strip()` is the identity on all-digit strings. -/
theorem pyStripL_of_digits (s : List Char) (hdig : ∀ c ∈ s, c.isDigit = true) :
    pyStripL s = s := by
  apply pyStripL_eq_self
  · intro c hc
    exact isPyWs_of_digit c (hdig c (mem_of_head?_eq s c hc))
  · intro c hc
    have hm : c ∈ s.reverse := mem_of_head?_eq s.reverse c hc
    exact isPyWs_of_digit c (hdig c (List.mem_reverse.mp hm))

/-- `strip()` removes a single leading space before an all-digit string.
-/
theorem pyStripL_space_digits (ds : List Char) (hdig : ∀ c ∈ ds, c.isDigit = true) :
    pyStripL (' ' :: ds) = ds := by
  unfold pyStripL
  rw [List.dropWhile_cons]
  rw [if_pos (by decide : isPyWs ' ' = true)]
  rw [dropWhile_head_false isPyWs ds
    (fun c hc => isPyWs_of_digit c (hdig c (mem_of_head?_eq ds c hc)))]
  rw [dropWhile_head_false isPyWs ds.reverse
    (fun c hc => isPyWs_of_digit c
      (hdig c (List.mem_reverse.mp (mem_of_head?_eq ds.reverse c hc))))]
  exact List.reverse_reverse ds

/-- Whitespace-splitting the empty string yields no fields. -/
theorem splitWsAux_nil (fuel : Nat) : splitWsAux fuel [] = [] := by
  cases fuel <;> rfl

/-- `split()` on a non-empty whitespace-free string yields that one
token. -/
theorem pySplitWsL_single (s : List Char) (hne : s ≠ [])
    (h : ∀ c ∈ s, isPyWs c = false) : pySplitWsL s = [s] := by
  cases s with
  | nil => exact absurd rfl hne
  | cons c t =>
    unfold pySplitWsL
    simp only [splitWsAux]
    rw [dropWhile_head_false isPyWs (c :: t)
      (fun x hx => h x (mem_of_head?_eq (c :: t) x hx))]
    have htake : (c :: t).takeWhile (fun x => !isPyWs x) = c :: t :=
      List.takeWhile_eq_self_iff.mpr (fun x hx => by rw [h x hx]; rfl)
    have hdrop : (c :: t).dropWhile (fun x => !isPyWs x) = [] :=
      List.dropWhile_eq_nil_iff.mpr (fun x hx => by rw [h x hx]; rfl)
    rw [htake, hdrop]
    simp

/-- `float()` maps a non-empty digit string to its decimal value. -/
theorem pyFloat_digits (ds : List Char) (hne : ds ≠ [])
    (hdig : ∀ c ∈ ds, c.isDigit = true) :
    pyFloat ds = some ((digitsToNat ds : ℚ)) := by
  cases ds with
  | nil => exact absurd rfl hne
  | cons c t =>
    have hc := hdig c (List.mem_cons_self c t)
    unfold pyFloat
    rw [pyStripL_of_digits (c :: t) hdig]
    dsimp only
    rw [if_neg (digit_ne_of c hc '-' (by decide)),
      if_neg (digit_ne_of c hc '+' (by decide))]
    unfold pyFloatCore
    rw [List.takeWhile_eq_self_iff.mpr hdig, List.dropWhile_eq_nil_iff.mpr hdig]
    simp

/-- The parsing loop on a line `OVERALL_SCORE: <digits>` switches to the
score section and stores exactly the decimal value of the digits. -/
theorem parse_line_score_line (ds : List Char) (hne : ds ≠ [])
    (hdig : ∀ c ∈ ds, c.isDigit = true) :
    parse_line initSt ("OVERALL_SCORE: ".toList ++ ds) =
      { initSt with sec := .score, score := (digitsToNat ds : ℚ) } := by
  have hlab : "OVERALL_SCORE: ".toList = 'O' :: "VERALL_SCORE: ".toList := by decide
  have hlab2 : "OVERALL_SCORE: ".toList = overallLabel ++ [' '] := by decide
  have hcrit : critLabel = 'C' :: "RITERIA_SCORES:".toList := by decide
  have hover : overallLabel = 'O' :: "VERALL_SCORE:".toList := by decide
  have hstrip : pyStripL ("OVERALL_SCORE: ".toList ++ ds) = "OVERALL_SCORE: ".toList ++ ds := by
    apply pyStripL_eq_self
    · intro c hc
      rw [hlab, List.cons_append, List.head?_cons] at hc
      injection hc with hc
      subst hc
      decide
    · intro c hc
      rw [List.reverse_append] at hc
      obtain ⟨d, t', hd⟩ : ∃ d t', ds.reverse = d :: t' := by
        cases hr : ds.reverse with
        | nil => exact absurd (List.reverse_eq_nil_iff.mp hr) hne
        | cons d t' => exact ⟨d, t', rfl⟩
      rw [hd, List.cons_append, List.head?_cons] at hc
      injection hc with hc
      subst hc
      exact isPyWs_of_digit d
        (hdig d (List.mem_reverse.mp (by rw [hd]; exact List.mem_cons_self d t')))
  have hcritF : startsWithL ("OVERALL_SCORE: ".toList ++ ds) critLabel = false := by
    rw [hlab, hcrit, List.cons_append]
    exact startsWithL_cons_ne 'O' 'C' _ _ (by decide)
  have hoverT : startsWithL ("OVERALL_SCORE: ".toList ++ ds) overallLabel = true := by
    rw [hlab2, List.append_assoc]
    exact startsWithL_append_self overallLabel ([' '] ++ ds)
  have hrepl : replaceAllL overallLabel ("OVERALL_SCORE: ".toList ++ ds) = ' ' :: ds := by
    rw [hlab2, List.append_assoc, (rfl : [' '] ++ ds = ' ' :: ds), hover]
    apply replaceAllL_strip_label
    intro hm
    rcases List.mem_cons.mp hm with h | h
    · exact absurd h (by decide)
    · exact absurd (hdig 'O' h) (by decide)
  have hsp : pyStripL (' ' :: ds) = ds := pyStripL_space_digits ds hdig
  have hsplit : pySplitWsL ds = [ds] :=
    pySplitWsL_single ds hne (fun c hc => isPyWs_of_digit c (hdig c hc))
  have hfloat : pyFloat ds = some ((digitsToNat ds : ℚ)) := pyFloat_digits ds hne hdig
  simp only [parse_line]
  rw [hstrip, hcritF, if_neg Bool.false_ne_true, hoverT, if_pos rfl, hrepl, hsp, hsplit]
  dsimp only
  rw [hfloat]

/-- C2 amended: the score stored by `_parse_evaluation_response` is
exactly the numeric value written after `OVERALL_SCORE:`, with no
clamping — for every non-empty digit string `ds` the parsed score is the
full decimal value of `ds`, even when it lies outside `[1, 10]`. -/
theorem parse_score_unclamped (ds : List Char) (hne : ds ≠ [])
    (hdig : ∀ c ∈ ds, c.isDigit = true) :
    (parse_evaluation_response (String.mk ("OVERALL_SCORE: ".toList ++ ds))).score =
      (digitsToNat ds : ℚ) := by
  have hnl : '\n' ∉ "OVERALL_SCORE: ".toList ++ ds := by
    intro hm
    rcases List.mem_append.mp hm with h | h
    · exact absurd h (by decide)
    · exact absurd (hdig '\n' h) (by decide)
  unfold parse_evaluation_response
  have htl : (String.mk ("OVERALL_SCORE: ".toList ++ ds)).toList =
      "OVERALL_SCORE: ".toList ++ ds := rfl
  rw [htl, splitOnCharL_eq_single '\n' _ hnl, List.foldl_cons, List.foldl_nil,
    parse_line_score_line ds hne hdig]

/-- C2 counterexample: the texts `OVERALL_SCORE: 15` and
`OVERALL_SCORE: 0` parse to scores 15 > 10 and 0 < 1 — the parser
performs no clamping to `[1, 10]`. -/
theorem parse_score_not_clamped_counterexample :
    (parse_evaluation_response "OVERALL_SCORE: 15").score = 15 ∧
    10 < (parse_evaluation_response "OVERALL_SCORE: 15").score ∧
    (parse_evaluation_response "OVERALL_SCORE: 0").score = 0 ∧
    (parse_evaluation_response "OVERALL_SCORE: 0").score < 1 := by
  refine ⟨by decide, by decide, by decide, by decide⟩

/-- C2 witness: instantiating the no-clamping theorem at the digit
string `15` yields the out-of-range stored score 15. -/
theorem parse_score_unclamped_witness :
    ['1', '5'] ≠ ([] : List Char) ∧
    (parse_evaluation_response (String.mk ("OVERALL_SCORE: ".toList ++ ['1', '5']))).score = 15 := by
  refine ⟨by decide, ?_⟩
  have h := parse_score_unclamped ['1', '5'] (by decide) (by decide)
  rw [h]
  decide
